import Mathlib

/-!
Verification of the data-access core in src/models/job.js (class Job).

The JavaScript source is shallowly embedded: each SQL statement issued
through db.query is translated into a Lean function on an explicit
database state, faithful to the statement text (join structure, WHERE
clauses, ordering, OFFSET/LIMIT), and the dynamic query construction of
Job.findAll is embedded as a builder producing a structured predicate
list plus a positional parameter list, exactly mirroring the push order
and index bookkeeping of the source.
-/

namespace Jobly

/-- JavaScript scalar values as they are bound as query parameters:
strings, numbers (modelled as rationals), NaN (the result of unary plus
on undefined, as in +data.min_employees when that field is absent), and
SQL NULL. -/
inductive Val where
  | str (s : String)
  | num (q : ℚ)
  | nan
  | vnull
deriving DecidableEq

/-- A row of the jobs table: id PK, title, salary (nullable numeric),
equity (nullable numeric), company_handle FK. -/
structure JobRec where
  id : Nat
  title : String
  salary : Option ℚ
  equity : Option ℚ
  company_handle : String
deriving DecidableEq

/-- A row of the companies table. -/
structure CompanyRec where
  handle : String
  name : String
  num_employees : Option Int
  description : Option String
  logo_url : Option String
deriving DecidableEq

/-- A row of the applications table. -/
structure AppRec where
  job_id : Nat
  username : String
  state : String
deriving DecidableEq

/-- The relational storage state reached through db.query, plus the
generator for the jobs primary key. -/
structure DB where
  jobs : List JobRec
  companies : List CompanyRec
  applications : List AppRec
  nextId : Nat
deriving DecidableEq

/-- Errors thrown by the source: a generic Error object carrying a
message and an ad hoc status field (404 on the not-found paths). -/
structure JsError where
  message : String
  status : Nat
deriving DecidableEq

/-- The not-found error each repository operation throws, status 404. -/
def notFoundJob (id : Nat) : JsError :=
  { message := "There exists no job " ++ toString id, status := 404 }

/-- JavaScript truthiness of an optional numeric field: undefined and 0
are falsy (NaN cannot arise as a stored criterion value here). -/
def truthyNum (v : Option ℚ) : Bool :=
  match v with
  | none => false
  | some q => decide (q ≠ 0)

/-- JavaScript truthiness of an optional string field: undefined and the
empty string are falsy. -/
def truthyStr (v : Option String) : Bool :=
  match v with
  | none => false
  | some s => decide (s ≠ "")

/-- JavaScript unary plus on an optional numeric field: +undefined is
NaN. -/
def toNum (v : Option ℚ) : Val :=
  match v with
  | none => Val.nan
  | some q => Val.num q

/-- The filter-criteria object accepted by Job.findAll. The source reads
the fields min_salary, max_equity, min_employees, max_employees and
search from it. -/
structure FilterData where
  min_salary : Option ℚ := none
  max_equity : Option ℚ := none
  min_employees : Option ℚ := none
  max_employees : Option ℚ := none
  search : Option String := none
deriving DecidableEq

/-- The empty criteria object. -/
def emptyFilter : FilterData := {}

/-- A WHERE predicate as the source builds it by string concatenation:
either column >= dollar-index or column ILIKE dollar-index. -/
inductive Pred where
  | ge (col : String) (idx : Nat)
  | ilike (col : String) (idx : Nat)
deriving DecidableEq

/-- The column a predicate references. -/
def predCol (p : Pred) : String :=
  match p with
  | .ge c _ => c
  | .ilike c _ => c

/-- The positional parameter index a predicate references. -/
def predIdx (p : Pred) : Nat :=
  match p with
  | .ge _ i => i
  | .ilike _ i => i

/-- Render a predicate to the statement fragment the source pushes. -/
def renderPred (p : Pred) : String :=
  match p with
  | .ge c i => c ++ " >= $" ++ toString i
  | .ilike c i => c ++ " ILIKE $" ++ toString i

/-- The tail the source appends to baseQuery: a WHERE keyword exactly
when whereExpressions is nonempty, then the expressions joined with
AND. -/
def whereClause (preds : List Pred) : String :=
  (if preds.length > 0 then " WHERE " else "")
    ++ String.intercalate " AND " (preds.map renderPred)

/-- The dynamic query construction of Job.findAll, line for line: the
parameter list starts as [username]; if data.min_salary is truthy, push
+data.min_employees and the fragment min_salary >= $n with n the new
parameter count; if data.max_equity is truthy, push +data.max_employees
and min_equity >= $n; if data.search is truthy, push the wildcard-
wrapped term and title ILIKE $n. -/
def buildFindAll (data : FilterData) (username : String) : List Pred × List Val :=
  let qv0 : List Val := [Val.str username]
  let we0 : List Pred := []
  let qv1 := if truthyNum data.min_salary then qv0 ++ [toNum data.min_employees] else qv0
  let we1 := if truthyNum data.min_salary then we0 ++ [Pred.ge "min_salary" qv1.length] else we0
  let qv2 := if truthyNum data.max_equity then qv1 ++ [toNum data.max_employees] else qv1
  let we2 := if truthyNum data.max_equity then we1 ++ [Pred.ge "min_equity" qv2.length] else we1
  let qv3 := if truthyStr data.search then qv2 ++ [Val.str ("%" ++ data.search.getD "" ++ "%")] else qv2
  let we3 := if truthyStr data.search then we2 ++ [Pred.ilike "title" qv3.length] else we2
  (we3, qv3)

/-- Number of optional criteria the source treats as present. -/
def nCrit (data : FilterData) : Nat :=
  (truthyNum data.min_salary).toNat + (truthyNum data.max_equity).toNat
    + (truthyStr data.search).toNat

/-- One row of the FROM scope shared by findUserJobs, findAll and
findSome: a jobs row, LEFT JOIN companies AS c ON company_handle =
c.handle, LEFT OUTER JOIN applications AS a ON a.job_id = id AND
a.username = the first parameter. The Option parts are NULL-extended
sides of the left joins. -/
def Scope : Type := JobRec × Option CompanyRec × Option AppRec

instance : DecidableEq Scope := by
  unfold Scope
  infer_instance

/-- SQL left join against companies on a handle: every matching company
row, or a single NULL-extended row when none matches. -/
def leftJoinCompanies (cs : List CompanyRec) (h : String) : List (Option CompanyRec) :=
  match cs.filter (fun c => c.handle == h) with
  | [] => [none]
  | ms => ms.map some

/-- SQL left outer join against applications on a.job_id = id AND
a.username = username. -/
def leftJoinApps (apps : List AppRec) (jid : Nat) (username : String) : List (Option AppRec) :=
  match apps.filter (fun a => a.job_id == jid && a.username == username) with
  | [] => [none]
  | ms => ms.map some

/-- The joined FROM scope of the three listing queries. -/
def scopeRows (db : DB) (username : String) : List Scope :=
  db.jobs.flatMap (fun j =>
    (leftJoinCompanies db.companies j.company_handle).flatMap (fun c =>
      (leftJoinApps db.applications j.id username).map (fun a => (j, c, a))))

/-- The SELECT list of findUserJobs: id, title, company_handle, salary,
equity, c.name AS company_name, a.state, a.username. -/
structure UserJobRow where
  id : Nat
  title : String
  company_handle : String
  salary : Option ℚ
  equity : Option ℚ
  company_name : Option String
  state : Option String
  username : Option String
deriving DecidableEq

/-- Project a scope row onto the findUserJobs SELECT list. -/
def userRowOf (t : Scope) : UserJobRow :=
  { id := t.1.id, title := t.1.title, company_handle := t.1.company_handle,
    salary := t.1.salary, equity := t.1.equity,
    company_name := t.2.1.map (fun c => c.name),
    state := t.2.2.map (fun a => a.state),
    username := t.2.2.map (fun a => a.username) }

/-- Job.findUserJobs: the joined scope with WHERE a.username = the
username parameter. Under SQL three-valued logic a NULL a.username never
satisfies the equality, so NULL-extended rows are dropped. -/
def findUserJobs (db : DB) (username : String) : List UserJobRow :=
  ((scopeRows db username).map userRowOf).filter
    (fun r => r.username == some username)

/-- The SELECT list of findAll and findSome: id, title, company_handle,
salary, equity, c.name, a.state. -/
structure JobSearchRow where
  id : Nat
  title : String
  company_handle : String
  salary : Option ℚ
  equity : Option ℚ
  name : Option String
  state : Option String
deriving DecidableEq

/-- Project a scope row onto the findAll/findSome SELECT list. -/
def searchRowOf (t : Scope) : JobSearchRow :=
  { id := t.1.id, title := t.1.title, company_handle := t.1.company_handle,
    salary := t.1.salary, equity := t.1.equity,
    name := t.2.1.map (fun c => c.name),
    state := t.2.2.map (fun a => a.state) }

/-- Projection from the findUserJobs row shape to the findAll row shape
(drop a.username, the company name columns coincide). -/
def projUser (r : UserJobRow) : JobSearchRow :=
  { id := r.id, title := r.title, company_handle := r.company_handle,
    salary := r.salary, equity := r.equity,
    name := r.company_name, state := r.state }

/-- The unqualified column names visible in the FROM scope of the
findAll query (jobs, companies AS c, applications AS a). -/
def scopeCols : List String :=
  ["id", "title", "salary", "equity", "company_handle",
   "handle", "name", "num_employees", "description", "logo_url",
   "job_id", "username", "state"]

/-- Parse/plan-time validation the storage engine applies to a
predicate before any row is scanned: the referenced column must exist
in scope and the positional parameter must be bound. -/
def checkPred (params : List Val) (p : Pred) : Except String Unit :=
  if scopeCols.contains (predCol p) then
    if 1 ≤ predIdx p ∧ predIdx p ≤ params.length then Except.ok ()
    else Except.error "parameter out of range"
  else Except.error ("column " ++ predCol p ++ " does not exist")

/-- Plan-time validation of the whole predicate list, first failure
wins, as the storage engine rejects the statement before execution. -/
def planCheck (preds : List Pred) (params : List Val) : Except String Unit :=
  match preds with
  | [] => Except.ok ()
  | p :: ps =>
    match checkPred params p with
    | Except.error e => Except.error e
    | Except.ok _ => planCheck ps params

/-- SQL LIKE pattern matching over character lists: percent matches any
sequence, underscore any single character. -/
def likeMatch : List Char → List Char → Bool
  | [], [] => true
  | [], _ :: _ => false
  | '%' :: p, [] => likeMatch p []
  | '%' :: p, c :: s => likeMatch p (c :: s) || likeMatch ('%' :: p) s
  | '_' :: _, [] => false
  | '_' :: p, _ :: s => likeMatch p s
  | _ :: _, [] => false
  | a :: p, c :: s => a == c && likeMatch p s
termination_by p s => (p.length, s.length)

/-- Look a scope column up in a scope row; NULL for the NULL-extended
join sides (total: planCheck has already rejected unknown columns). -/
def lookupCol (t : Scope) (col : String) : Val :=
  if col = "id" then Val.num t.1.id
  else if col = "title" then Val.str t.1.title
  else if col = "salary" then (t.1.salary.map Val.num).getD Val.vnull
  else if col = "equity" then (t.1.equity.map Val.num).getD Val.vnull
  else if col = "company_handle" then Val.str t.1.company_handle
  else if col = "handle" then (t.2.1.map (fun c => Val.str c.handle)).getD Val.vnull
  else if col = "name" then (t.2.1.map (fun c => Val.str c.name)).getD Val.vnull
  else if col = "num_employees" then
    (t.2.1.bind (fun c => c.num_employees.map (fun n => Val.num n))).getD Val.vnull
  else if col = "description" then
    (t.2.1.bind (fun c => c.description.map Val.str)).getD Val.vnull
  else if col = "logo_url" then
    (t.2.1.bind (fun c => c.logo_url.map Val.str)).getD Val.vnull
  else if col = "job_id" then (t.2.2.map (fun a => Val.num a.job_id)).getD Val.vnull
  else if col = "username" then (t.2.2.map (fun a => Val.str a.username)).getD Val.vnull
  else if col = "state" then (t.2.2.map (fun a => Val.str a.state)).getD Val.vnull
  else Val.vnull

/-- SQL >= under three-valued logic; NULL operands give unknown, and
numeric NaN sorts above every number as in the storage engine. -/
def valGe (a b : Val) : Option Bool :=
  match a, b with
  | Val.num x, Val.num y => some (decide (y ≤ x))
  | Val.nan, Val.num _ => some true
  | Val.num _, Val.nan => some false
  | Val.nan, Val.nan => some true
  | _, _ => none

/-- SQL ILIKE under three-valued logic: case-insensitive LIKE on string
operands, unknown otherwise. -/
def valILike (a b : Val) : Option Bool :=
  match a, b with
  | Val.str s, Val.str pat => some (likeMatch pat.toLower.toList s.toLower.toList)
  | _, _ => none

/-- Evaluate one predicate on a scope row under three-valued logic. -/
def evalPred (t : Scope) (params : List Val) (p : Pred) : Option Bool :=
  match p with
  | .ge col i => valGe (lookupCol t col) (params.getD (i - 1) Val.vnull)
  | .ilike col i => valILike (lookupCol t col) (params.getD (i - 1) Val.vnull)

/-- A row passes the WHERE clause when every AND conjunct evaluates to
true (false or unknown excludes the row). -/
def rowPasses (preds : List Pred) (params : List Val) (t : Scope) : Bool :=
  preds.all (fun p => evalPred t params p == some true)

/-- Job.findAll: build the dynamic query from the criteria, then run it:
the storage engine validates the predicates against the scope columns
and bound parameters, then filters the joined scope by the WHERE clause
and projects the SELECT list. -/
def findAll (db : DB) (data : FilterData) (username : String) :
    Except String (List JobSearchRow) :=
  let built := buildFindAll data username
  match planCheck built.1 built.2 with
  | Except.error e => Except.error e
  | Except.ok _ =>
    Except.ok (((scopeRows db username).filter (rowPasses built.1 built.2)).map searchRowOf)

end Jobly

deriving instance DecidableEq for Except

namespace Jobly

/-- The concrete storage of the specification scenario in section 8:
three jobs with salaries 50000, 70000, 90000, one company, no
applications. -/
def db1 : DB :=
  { jobs := [⟨1, "j1", some 50000, some 0, "c"⟩,
             ⟨2, "j2", some 70000, some 0, "c"⟩,
             ⟨3, "j3", some 90000, some 0, "c"⟩],
    companies := [⟨"c", "CName", some 10, none, none⟩],
    applications := [],
    nextId := 4 }

/-- C1: the claim fails on the code. Supplying a minimum-salary
threshold of 60000 does not return the jobs with salary at least 60000:
the builder emits the predicate on the nonexistent column min_salary
(and reads its parameter from data.min_employees, which is absent, so
NaN is bound), and the query fails at the storage engine; symmetrically
for the equity criterion, which emits the nonexistent column
min_equity reading data.max_employees. -/
theorem findAll_cross_read_fails :
    findAll db1 { min_salary := some 60000 } "u"
      = Except.error "column min_salary does not exist"
    ∧ findAll db1 { max_equity := some 1 } "u"
      = Except.error "column min_equity does not exist"
    ∧ (buildFindAll { min_salary := some 60000 } "u").2 = [Val.str "u", Val.nan]
    ∧ (buildFindAll { max_equity := some 1 } "u").2 = [Val.str "u", Val.nan] := by
  decide

/-- C2: counterexample. With three stored jobs and no applications,
findAll with empty criteria returns three rows while findUserJobs
returns none, so the two operations do not return the same row set for
the same username. -/
theorem search_empty_ne_listForUser :
    (findUserJobs db1 "u").length = 0
    ∧ ((findAll db1 emptyFilter "u").toOption.map List.length) = some 3
    ∧ Except.ok ((findUserJobs db1 "u").map projUser) ≠ findAll db1 emptyFilter "u" := by
  decide

/-- C3: counterexample. findUserJobs does not return every stored Job:
with three jobs and no applications it returns the empty list, because
its WHERE a.username clause discards the NULL-extended rows of the left
outer join. -/
theorem listForUser_filters_jobs :
    db1.jobs.length = 3
    ∧ findUserJobs db1 "u" = []
    ∧ ¬ (findUserJobs db1 "u").length = db1.jobs.length := by
  decide

/-- C4: the query built by findAll always carries the acting username
as first positional parameter; each present criterion contributes
exactly one predicate and one further parameter, in evaluation order
salary, equity, search; predicate k references positional parameter
k + 2; predicates are joined with AND only; and with zero criteria no
WHERE clause is emitted. -/
theorem findAll_query_shape (data : FilterData) (username : String) :
    ((buildFindAll data username).2).head? = some (Val.str username)
    ∧ ((buildFindAll data username).2).length = 1 + nCrit data
    ∧ ((buildFindAll data username).1).length = nCrit data
    ∧ (buildFindAll data username).1
        = (if truthyNum data.min_salary then [Pred.ge "min_salary" 2] else [])
          ++ (if truthyNum data.max_equity then
                [Pred.ge "min_equity" (2 + (truthyNum data.min_salary).toNat)] else [])
          ++ (if truthyStr data.search then
                [Pred.ilike "title"
                  (2 + (truthyNum data.min_salary).toNat
                    + (truthyNum data.max_equity).toNat)] else [])
    ∧ (buildFindAll data username).2
        = [Val.str username]
          ++ (if truthyNum data.min_salary then [toNum data.min_employees] else [])
          ++ (if truthyNum data.max_equity then [toNum data.max_employees] else [])
          ++ (if truthyStr data.search then
                [Val.str ("%" ++ data.search.getD "" ++ "%")] else [])
    ∧ (whereClause ((buildFindAll data username).1) = ""
        ↔ (buildFindAll data username).1 = [])
    ∧ ((buildFindAll data username).1 ≠ [] →
        whereClause ((buildFindAll data username).1)
          = " WHERE "
            ++ String.intercalate " AND "
                (((buildFindAll data username).1).map renderPred)) := by
  refine ⟨?_, ?_, ?_, ?_, ?_, ?_, ?_⟩ <;>
    cases h1 : truthyNum data.min_salary <;>
      cases h2 : truthyNum data.max_equity <;>
        cases h3 : truthyStr data.search <;>
          (simp [buildFindAll, nCrit, h1, h2, h3, whereClause, renderPred]) <;>
            decide

/-- The number 0 is falsy in JavaScript, so a zero threshold fails the
truthiness test. -/
theorem truthyNum_some_zero : truthyNum (some 0) = false := by decide

/-- An absent field is falsy. -/
theorem truthyNum_none : truthyNum none = false := rfl

/-- C10: a zero minimum-salary or minimum-equity threshold is falsy and
is treated exactly as an absent criterion: the built query is
identical, and so is the search result. -/
theorem findAll_zero_threshold_absent (db : DB) (data : FilterData) (username : String) :
    buildFindAll { data with min_salary := some 0 } username
      = buildFindAll { data with min_salary := none } username
    ∧ buildFindAll { data with max_equity := some 0 } username
      = buildFindAll { data with max_equity := none } username
    ∧ findAll db { data with min_salary := some 0, max_equity := some 0 } username
      = findAll db { data with min_salary := none, max_equity := none } username := by
  refine ⟨?_, ?_, ?_⟩ <;>
    simp [findAll, buildFindAll, truthyNum_some_zero, truthyNum_none]

/-- Boolean pairwise predicate over a list. -/
def pairwiseB (r : α → α → Bool) : List α → Bool
  | [] => true
  | x :: xs => xs.all (r x) && pairwiseB r xs

/-- The schema invariant that company handles are unique (handle is the
primary key of companies). -/
def companiesOk (db : DB) : Bool :=
  pairwiseB (fun a b => a.handle != b.handle) db.companies

/-- The intended composite-identity invariant on applications: at most
one row per (job_id, username) pair. -/
def appsOk (db : DB) : Bool :=
  pairwiseB (fun a b => !(a.job_id == b.job_id && a.username == b.username)) db.applications

/-- When no two distinct elements of a list can both satisfy a
predicate, filtering by it returns at most the first match. -/
theorem filter_of_pairwiseB (p : α → Bool) (r : α → α → Bool)
    (himp : ∀ x y, r x y = true → p x = true → p y = true → False) :
    ∀ l : List α, pairwiseB r l = true → l.filter p = (l.find? p).toList := by
  intro l
  induction l with
  | nil => intro _; rfl
  | cons x xs ih =>
    intro hl
    simp only [pairwiseB, Bool.and_eq_true, List.all_eq_true] at hl
    obtain ⟨hx, hxs⟩ := hl
    by_cases hp : p x = true
    · have hnil : xs.filter p = [] := by
        rw [List.filter_eq_nil_iff]
        intro b hb hpb
        exact himp x b (hx b hb) hp hpb
      rw [List.filter_cons_of_pos hp, List.find?_cons_of_pos _ hp, hnil]
      rfl
    · rw [List.filter_cons_of_neg hp, List.find?_cons_of_neg _ hp]
      exact ih hxs

/-- The single company row, if any, the LEFT JOIN matches for a
handle. -/
def findCompany (db : DB) (h : String) : Option CompanyRec :=
  db.companies.find? (fun c => c.handle == h)

/-- The single application row, if any, the LEFT OUTER JOIN matches for
a job id and username. -/
def findApp (db : DB) (jid : Nat) (username : String) : Option AppRec :=
  db.applications.find? (fun a => a.job_id == jid && a.username == username)

/-- Under the handle-uniqueness invariant the companies left join
contributes exactly one row per job. -/
theorem leftJoinCompanies_eq (db : DB) (h : String) (hc : companiesOk db = true) :
    leftJoinCompanies db.companies h = [findCompany db h] := by
  have hf := filter_of_pairwiseB (fun c : CompanyRec => c.handle == h)
    (fun a b : CompanyRec => a.handle != b.handle)
    (fun x y hxy hx hy => by
      simp only [bne_iff_ne, ne_eq] at hxy
      simp only [beq_iff_eq] at hx hy
      exact hxy (hx.trans hy.symm))
    db.companies hc
  unfold leftJoinCompanies findCompany
  rw [hf]
  cases db.companies.find? (fun c => c.handle == h) with
  | none => rfl
  | some c => rfl

/-- Under the composite-identity invariant the applications left outer
join contributes exactly one row per job. -/
theorem leftJoinApps_eq (db : DB) (jid : Nat) (u : String) (ha : appsOk db = true) :
    leftJoinApps db.applications jid u = [findApp db jid u] := by
  have hf := filter_of_pairwiseB (fun a : AppRec => a.job_id == jid && a.username == u)
    (fun a b : AppRec => !(a.job_id == b.job_id && a.username == b.username))
    (fun x y hxy hx hy => by
      simp only [Bool.not_eq_true'] at hxy
      simp only [Bool.and_eq_true, beq_iff_eq] at hx hy
      rw [hx.1, hx.2, hy.1, hy.2] at hxy
      simp at hxy)
    db.applications ha
  unfold leftJoinApps findApp
  rw [hf]
  cases db.applications.find? (fun a => a.job_id == jid && a.username == u) with
  | none => rfl
  | some a => rfl

/-- The single joined scope row a job contributes under the uniqueness
invariants. -/
def canonScope (db : DB) (u : String) (j : JobRec) : Scope :=
  (j, findCompany db j.company_handle, findApp db j.id u)

/-- Flat-mapping a singleton-producing function is mapping. -/
theorem flatMap_one (f : α → β) (l : List α) :
    l.flatMap (fun a => [f a]) = l.map f := by
  induction l with
  | nil => rfl
  | cons x xs ih => simp [List.flatMap_cons, ih]

/-- Under the uniqueness invariants the joined FROM scope has exactly
one row per stored job, in storage order. -/
theorem scopeRows_eq (db : DB) (u : String)
    (hc : companiesOk db = true) (ha : appsOk db = true) :
    scopeRows db u = db.jobs.map (canonScope db u) := by
  unfold scopeRows
  have h1 : ∀ j : JobRec,
      leftJoinCompanies db.companies j.company_handle = [findCompany db j.company_handle] :=
    fun j => leftJoinCompanies_eq db j.company_handle hc
  have h2 : ∀ j : JobRec,
      leftJoinApps db.applications j.id u = [findApp db j.id u] :=
    fun j => leftJoinApps_eq db j.id u ha
  simp only [h1, h2, List.flatMap_cons, List.flatMap_nil, List.map_cons,
    List.map_nil, List.append_nil]
  exact flatMap_one (canonScope db u) db.jobs

/-- findUserJobs, characterized: under the uniqueness invariants it
returns exactly the stored jobs the user has an application for, in
storage order, each joined with that application. -/
theorem findUserJobs_eq (db : DB) (u : String)
    (hc : companiesOk db = true) (ha : appsOk db = true) :
    findUserJobs db u
      = (db.jobs.filter (fun j => (findApp db j.id u).isSome)).map
          (fun j => userRowOf (canonScope db u j)) := by
  unfold findUserJobs
  rw [scopeRows_eq db u hc ha, List.map_map, List.filter_map]
  have hcongr : ∀ j ∈ db.jobs,
      (((fun r : UserJobRow => r.username == some u) ∘ (userRowOf ∘ canonScope db u)) j)
        = (findApp db j.id u).isSome := by
    intro j _
    simp only [Function.comp_apply, userRowOf, canonScope]
    cases hfa : findApp db j.id u with
    | none => simp
    | some a =>
      have hpa := List.find?_some hfa
      simp only [Bool.and_eq_true, beq_iff_eq] at hpa
      simp [hpa.2]
  rw [List.filter_congr hcongr]
  rfl

/-- Empty-criteria findAll, characterized: under the uniqueness
invariants it returns one row per stored job, in storage order, with no
filtering. -/
theorem findAll_empty_eq (db : DB) (u : String)
    (hc : companiesOk db = true) (ha : appsOk db = true) :
    findAll db emptyFilter u
      = Except.ok (db.jobs.map (fun j => searchRowOf (canonScope db u j))) := by
  unfold findAll
  have hb : buildFindAll emptyFilter u = ([], [Val.str u]) := rfl
  rw [hb]
  have hpass : ∀ t : Scope, rowPasses [] [Val.str u] t = true := fun t => rfl
  simp only [planCheck, List.filter_congr (fun t _ => hpass t), List.filter_true]
  rw [scopeRows_eq db u hc ha, List.map_map]
  rfl

/-- Projecting the findUserJobs row shape onto the findAll row shape
commutes with building the rows. -/
theorem projUser_userRowOf (t : Scope) : projUser (userRowOf t) = searchRowOf t := rfl

/-- A concrete storage state with one application, used to witness the
theorems with invariant hypotheses. -/
def dbW : DB :=
  { jobs := [⟨1, "alpha", some 50000, some 0, "c"⟩,
             ⟨2, "beta", some 70000, none, "c"⟩],
    companies := [⟨"c", "CName", some 10, none, none⟩],
    applications := [⟨1, "u", "applied"⟩],
    nextId := 3 }

/-- C3, amended: findUserJobs does not return every Job; it returns
exactly the Jobs the acting user has applied to (in storage order),
each joined with that application, whose state and username columns are
then present; jobs without an application from the user are filtered
out by the WHERE a.username clause. -/
theorem listForUser_returns_applied_jobs (db : DB) (u : String)
    (hc : companiesOk db = true) (ha : appsOk db = true) :
    findUserJobs db u
      = (db.jobs.filter (fun j => (findApp db j.id u).isSome)).map
          (fun j => userRowOf (canonScope db u j))
    ∧ ∀ r ∈ findUserJobs db u, r.username = some u ∧ r.state.isSome = true := by
  refine ⟨findUserJobs_eq db u hc ha, ?_⟩
  intro r hr
  rw [findUserJobs_eq db u hc ha] at hr
  simp only [List.mem_map, List.mem_filter] at hr
  obtain ⟨j, ⟨_, hj⟩, hrj⟩ := hr
  cases hfa : findApp db j.id u with
  | none => rw [hfa] at hj; simp at hj
  | some a =>
    have hpa := List.find?_some hfa
    simp only [Bool.and_eq_true, beq_iff_eq] at hpa
    subst hrj
    simp [userRowOf, canonScope, hfa, hpa.2]

/-- Witness for the amended C3 theorem at a concrete database. -/
theorem listForUser_returns_applied_jobs_witness :
    companiesOk dbW = true ∧ appsOk dbW = true
    ∧ (findUserJobs dbW "u"
        = (dbW.jobs.filter (fun j => (findApp dbW j.id "u").isSome)).map
            (fun j => userRowOf (canonScope dbW "u" j))
      ∧ ∀ r ∈ findUserJobs dbW "u", r.username = some "u" ∧ r.state.isSome = true) :=
  ⟨by decide, by decide, listForUser_returns_applied_jobs dbW "u" (by decide) (by decide)⟩

/-- C2, amended: search with no criteria does not return the same row
set as listForUser; it returns one row per stored job (the full joined
listing), while listForUser returns only the rows of the jobs the user
has applied to, so the two coincide exactly when the user has an
application for every job. -/
theorem search_empty_superset_listForUser (db : DB) (u : String)
    (hc : companiesOk db = true) (ha : appsOk db = true) :
    findAll db emptyFilter u
      = Except.ok (db.jobs.map (fun j => searchRowOf (canonScope db u j)))
    ∧ (findUserJobs db u).map projUser
      = (db.jobs.filter (fun j => (findApp db j.id u).isSome)).map
          (fun j => searchRowOf (canonScope db u j)) := by
  refine ⟨findAll_empty_eq db u hc ha, ?_⟩
  rw [findUserJobs_eq db u hc ha, List.map_map]
  rfl

/-- The company projection findOne fetches with its second query. -/
structure CompanyProj where
  name : String
  num_employees : Option Int
  description : Option String
  logo_url : Option String
deriving DecidableEq

/-- The findOne result: the inner-joined row plus the company object
the source attaches to it. -/
structure FindOneJob where
  id : Nat
  title : String
  salary : Option ℚ
  equity : Option ℚ
  company_handle : String
  name : String
  company : Option CompanyProj
deriving DecidableEq

/-- Project a companies row for the embedded company object. -/
def companyProjOf (c : CompanyRec) : CompanyProj :=
  { name := c.name, num_employees := c.num_employees,
    description := c.description, logo_url := c.logo_url }

/-- The row set of the findOne SELECT: jobs INNER JOIN companies ON
company_handle = c.handle, WHERE id = the parameter. -/
def findOneRows (db : DB) (id : Nat) : List (JobRec × CompanyRec) :=
  (db.jobs.flatMap (fun j =>
    (db.companies.filter (fun c => c.handle == j.company_handle)).map
      (fun c => (j, c)))).filter (fun jc => jc.1.id == id)

/-- Job.findOne: take the first row of the join; throw the 404 error
when there is none; then fetch the company row by handle and attach its
projection. -/
def findOne (db : DB) (id : Nat) : Except JsError FindOneJob :=
  match (findOneRows db id).head? with
  | none => Except.error (notFoundJob id)
  | some jc =>
    Except.ok
      { id := jc.1.id, title := jc.1.title, salary := jc.1.salary,
        equity := jc.1.equity, company_handle := jc.1.company_handle,
        name := jc.2.name,
        company := ((db.companies.filter
          (fun c => c.handle == jc.1.company_handle)).map companyProjOf).head? }

/-- The input of Job.create. -/
structure CreateData where
  title : String
  salary : Option ℚ
  equity : Option ℚ
  company_handle : String
deriving DecidableEq

/-- The row Job.create inserts: the generated identifier plus the
caller-supplied fields. -/
def newJob (db : DB) (data : CreateData) : JobRec :=
  { id := db.nextId, title := data.title, salary := data.salary,
    equity := data.equity, company_handle := data.company_handle }

/-- Job.create: INSERT INTO jobs with a generated identifier, RETURNING
the persisted row; company existence is not validated here. -/
def create (db : DB) (data : CreateData) : JobRec × DB :=
  (newJob db data,
   { db with jobs := db.jobs ++ [newJob db data], nextId := db.nextId + 1 })

/-- Job.remove: DELETE FROM jobs WHERE id = $1 RETURNING id; throw the
404 error when no row was deleted. -/
def remove (db : DB) (id : Nat) : Except JsError Unit × DB :=
  let deleted := db.jobs.filter (fun j => j.id == id)
  let remaining := db.jobs.filter (fun j => !(j.id == id))
  (if deleted.length = 0 then Except.error (notFoundJob id) else Except.ok (),
   { db with jobs := remaining })

/-- Job.apply: SELECT id FROM jobs WHERE id = $1; throw the 404 error
when the result is empty; otherwise INSERT the application row. The
insert is not reached on the error path. -/
def apply (db : DB) (id : Nat) (username state : String) : Except JsError Unit × DB :=
  let rows := db.jobs.filter (fun j => j.id == id)
  if rows.length = 0 then (Except.error (notFoundJob id), db)
  else (Except.ok (),
    { db with applications := db.applications ++ [⟨id, username, state⟩] })

/-- The statement shape the partial-update builder produces: the target
table, the SET columns in map order, and the identifier column. -/
structure UpdateQuery where
  table : String
  setCols : List String
  keyCol : String
deriving DecidableEq

/-- The error of the partial-update builder on an empty field map. -/
def validationError : JsError := { message := "No fields to update", status := 400 }

/-- Modelled from the spec: the repository requires
../helpers/partialUpdate, which is not under src/, so the builder is
modelled from section 4.2 of the specification: it fails with a
ValidationError when the field map is empty; otherwise it SETs exactly
the supplied fields in map order bound to positional parameters 1..n,
filters on the identifier column bound to parameter n+1, the identifier
value appended last, and returns the updated row. -/
def sqlForPartialUpdate (table : String) (items : List (String × Val))
    (key : String) (idVal : Val) : Except JsError (UpdateQuery × List Val) :=
  if items.isEmpty then Except.error validationError
  else
    Except.ok
      ({ table := table, setCols := items.map (fun p => p.1), keyCol := key },
       items.map (fun p => p.2) ++ [idVal])

/-- Bind-time validation of a SET pair by the storage engine: the
column must exist on jobs and the parameter must fit its type. -/
def colTypeOk (col : String) (v : Val) : Bool :=
  if col = "title" then (match v with | Val.str _ => true | _ => false)
  else if col = "salary" then
    (match v with | Val.num _ => true | Val.vnull => true | _ => false)
  else if col = "equity" then
    (match v with | Val.num _ => true | Val.vnull => true | _ => false)
  else if col = "company_handle" then (match v with | Val.str _ => true | _ => false)
  else if col = "id" then
    (match v with | Val.num q => decide (q.den = 1 ∧ 0 ≤ q.num) | _ => false)
  else false

/-- Apply one validated SET pair to a jobs row. -/
def applySet (j : JobRec) (cv : String × Val) : JobRec :=
  if cv.1 = "title" then
    (match cv.2 with | Val.str s => { j with title := s } | _ => j)
  else if cv.1 = "salary" then
    (match cv.2 with
     | Val.num q => { j with salary := some q }
     | Val.vnull => { j with salary := none }
     | _ => j)
  else if cv.1 = "equity" then
    (match cv.2 with
     | Val.num q => { j with equity := some q }
     | Val.vnull => { j with equity := none }
     | _ => j)
  else if cv.1 = "company_handle" then
    (match cv.2 with | Val.str s => { j with company_handle := s } | _ => j)
  else if cv.1 = "id" then
    (match cv.2 with | Val.num q => { j with id := q.num.toNat } | _ => j)
  else j

/-- Execute UPDATE jobs SET ... WHERE the id column equals the key
parameter, RETURNING the updated rows: bind-time validation first, then
one pass over the table; first component the returned rows, second the
new table. -/
def execUpdateJobs (jobs : List JobRec) (sets : List (String × Val)) (keyVal : Val) :
    Except String (List JobRec × List JobRec) :=
  if sets.all (fun cv => colTypeOk cv.1 cv.2) then
    Except.ok
      (jobs.filterMap (fun j =>
         if Val.num (j.id : ℚ) == keyVal then some (sets.foldl applySet j) else none),
       jobs.map (fun j =>
         if Val.num (j.id : ℚ) == keyVal then sets.foldl applySet j else j))
  else Except.error "invalid column or parameter type in UPDATE"

/-- Job.update: build the partial UPDATE through sqlForPartialUpdate,
execute it, throw the 404 error when no row came back. The result also
carries the new storage state and the number of statements that were
executed against storage. -/
def update (db : DB) (id : Nat) (data : List (String × Val)) :
    Except JsError JobRec × DB × Nat :=
  match sqlForPartialUpdate "jobs" data "id" (Val.num (id : ℚ)) with
  | Except.error e => (Except.error e, db, 0)
  | Except.ok qv =>
    let sets := qv.1.setCols.zip (qv.2.take qv.1.setCols.length)
    let keyVal := qv.2.getD qv.1.setCols.length Val.vnull
    match execUpdateJobs db.jobs sets keyVal with
    | Except.error msg => (Except.error { message := msg, status := 500 }, db, 1)
    | Except.ok rj =>
      match rj.1.head? with
      | none => (Except.error (notFoundJob id), { db with jobs := rj.2 }, 1)
      | some j => (Except.ok j, { db with jobs := rj.2 }, 1)

/-- Witness for the amended C2 theorem at a concrete database. -/
theorem search_empty_superset_listForUser_witness :
    companiesOk dbW = true ∧ appsOk dbW = true
    ∧ (findAll dbW emptyFilter "u"
        = Except.ok (dbW.jobs.map (fun j => searchRowOf (canonScope dbW "u" j)))
      ∧ (findUserJobs dbW "u").map projUser
        = (dbW.jobs.filter (fun j => (findApp dbW j.id "u").isSome)).map
            (fun j => searchRowOf (canonScope dbW "u" j))) :=
  ⟨by decide, by decide, search_empty_superset_listForUser dbW "u" (by decide) (by decide)⟩

/-- C6: update with an empty field map fails with the ValidationError
of the partial-update builder before any statement is executed against
storage: zero statements run and the storage state is unchanged. -/
theorem update_empty_map_validation (db : DB) (id : Nat) :
    update db id [] = (Except.error validationError, db, 0) := rfl

/-- Missing identifier makes the filter by id empty. -/
theorem filter_id_nil (db : DB) (id : Nat)
    (hid : db.jobs.all (fun j => j.id != id) = true) :
    db.jobs.filter (fun j => j.id == id) = [] := by
  rw [List.filter_eq_nil_iff]
  intro j hj
  simp only [List.all_eq_true, bne_iff_ne, ne_eq] at hid
  simp [hid j hj]

/-- C7: apply on a job identifier not present in storage fails with the
404 not-found error, and no application row is inserted: the storage
state, in particular the applications table, is returned unchanged. -/
theorem apply_missing_job_not_found (db : DB) (id : Nat) (u s : String)
    (hid : db.jobs.all (fun j => j.id != id) = true) :
    apply db id u s = (Except.error (notFoundJob id), db) := by
  simp [apply, filter_id_nil db id hid]

/-- Witness for the C7 theorem at a concrete storage state. -/
theorem apply_missing_job_not_found_witness :
    db1.jobs.all (fun j => j.id != 99) = true
    ∧ apply db1 99 "u" "applied" = (Except.error (notFoundJob 99), db1) :=
  ⟨by decide, apply_missing_job_not_found db1 99 "u" "applied" (by decide)⟩

/-- Fetching the element appended after a list. -/
theorem getD_append_length (l : List α) (x d : α) : (l ++ [x]).getD l.length d = x := by
  induction l with
  | nil => rfl
  | cons a as ih =>
    show (a :: (as ++ [x])).getD (as.length + 1) d = x
    rw [List.getD_cons_succ]
    exact ih

/-- A map that fixes every member is the identity. -/
theorem map_eq_self_of (f : α → α) :
    ∀ l : List α, (∀ a ∈ l, f a = a) → l.map f = l := by
  intro l
  induction l with
  | nil => intro _; rfl
  | cons a as ih =>
    intro h
    simp only [List.map_cons]
    rw [h a (by simp), ih (fun b hb => h b (by simp [hb]))]

/-- Distinct identifiers never satisfy the UPDATE key comparison after
the cast into the numeric parameter. -/
theorem keyMatch_false (j : JobRec) (id : Nat) (hne : j.id ≠ id) :
    (Val.num (j.id : ℚ) == Val.num (id : ℚ)) = false := by
  rw [beq_eq_false_iff_ne]
  intro hEq
  injection hEq with h
  exact hne (by exact_mod_cast h)

/-- C5: for a job identifier not present in storage, findOne, update
(with a nonempty, well-typed field map) and remove each fail with the
404 not-found error and leave the storage state unchanged. -/
theorem missing_id_not_found (db : DB) (id : Nat) (data : List (String × Val))
    (hid : db.jobs.all (fun j => j.id != id) = true)
    (hne : data ≠ [])
    (htyped : data.all (fun cv => colTypeOk cv.1 cv.2) = true) :
    findOne db id = Except.error (notFoundJob id)
    ∧ update db id data = (Except.error (notFoundJob id), db, 1)
    ∧ remove db id = (Except.error (notFoundJob id), db) := by
  have hidP : ∀ j ∈ db.jobs, j.id ≠ id :=
    fun j hj => bne_iff_ne.mp (List.all_eq_true.mp hid j hj)
  refine ⟨?_, ?_, ?_⟩
  · have hrows : findOneRows db id = [] := by
      unfold findOneRows
      rw [List.filter_eq_nil_iff]
      intro jc hjc
      simp only [List.mem_flatMap, List.mem_map, List.mem_filter] at hjc
      obtain ⟨j, hj, c, _, hjc2⟩ := hjc
      rw [← hjc2]
      simp [hidP j hj]
    unfold findOne
    rw [hrows]
    rfl
  · have hne2 : data.isEmpty = false := List.isEmpty_eq_false.mpr hne
    have hsets :
        ((data.map (fun p => p.1)).zip
          ((data.map (fun p => p.2) ++ [Val.num (id : ℚ)]).take
            (data.map (fun p => p.1)).length)) = data := by
      rw [List.take_left' (by simp), List.zip_map']
      simp
    have hkey :
        (data.map (fun p => p.2) ++ [Val.num (id : ℚ)]).getD
          (data.map (fun p => p.1)).length Val.vnull = Val.num (id : ℚ) := by
      have hl : (data.map (fun p => p.1)).length = (data.map (fun p => p.2)).length := by
        simp
      rw [hl, getD_append_length]
    have hret :
        db.jobs.filterMap (fun j =>
          if Val.num (j.id : ℚ) == Val.num (id : ℚ)
          then some (data.foldl applySet j) else none) = [] := by
      rw [List.filterMap_eq_nil_iff]
      intro j hj
      rw [keyMatch_false j id (hidP j hj)]
      rfl
    have hmap :
        db.jobs.map (fun j =>
          if Val.num (j.id : ℚ) == Val.num (id : ℚ)
          then data.foldl applySet j else j) = db.jobs := by
      refine map_eq_self_of _ db.jobs (fun j hj => ?_)
      rw [keyMatch_false j id (hidP j hj)]
      rfl
    simp only [update, sqlForPartialUpdate, hne2, Bool.false_eq_true, if_false,
      execUpdateJobs, htyped, if_true, hsets, hkey, hret, hmap]
    rfl
  · have h1 : db.jobs.filter (fun j => j.id == id) = [] := filter_id_nil db id hid
    have h2 : db.jobs.filter (fun j => !(j.id == id)) = db.jobs := by
      rw [List.filter_eq_self]
      intro j hj
      simp [hidP j hj]
    simp only [remove, h1, h2, List.length_nil, if_true]

/-- Witness for the C5 theorem at a concrete storage state and a
concrete nonempty field map. -/
theorem missing_id_not_found_witness :
    (db1.jobs.all (fun j => j.id != 99) = true
      ∧ ([(("title" : String), Val.str "x")] : List (String × Val)) ≠ []
      ∧ ([(("title" : String), Val.str "x")] : List (String × Val)).all
          (fun cv => colTypeOk cv.1 cv.2) = true)
    ∧ (findOne db1 99 = Except.error (notFoundJob 99)
      ∧ update db1 99 [(("title" : String), Val.str "x")]
          = (Except.error (notFoundJob 99), db1, 1)
      ∧ remove db1 99 = (Except.error (notFoundJob 99), db1)) :=
  ⟨⟨by decide, by decide, by decide⟩,
    missing_id_not_found db1 99 [(("title" : String), Val.str "x")]
      (by decide) (by decide) (by decide)⟩

/-- C9: create followed by findOne on the returned identifier yields a
Job whose title, salary, equity and company_handle equal the input,
provided the stored identifiers are below the generator (the primary
key invariant) and the referenced company exists (findOne inner-joins
companies). -/
theorem create_then_findOne (db : DB) (data : CreateData)
    (hb : db.jobs.all (fun j => decide (j.id < db.nextId)) = true)
    (hcomp : db.companies.any (fun c => c.handle == data.company_handle) = true) :
    (create db data).1.title = data.title
    ∧ (create db data).1.salary = data.salary
    ∧ (create db data).1.equity = data.equity
    ∧ (create db data).1.company_handle = data.company_handle
    ∧ ∃ r : FindOneJob,
        findOne (create db data).2 (create db data).1.id = Except.ok r
        ∧ r.title = data.title ∧ r.salary = data.salary
        ∧ r.equity = data.equity ∧ r.company_handle = data.company_handle := by
  have hbP : ∀ j ∈ db.jobs, j.id ≠ db.nextId := fun j hj =>
    Nat.ne_of_lt (of_decide_eq_true (List.all_eq_true.mp hb j hj))
  refine ⟨rfl, rfl, rfl, rfl, ?_⟩
  have hrows : findOneRows (create db data).2 db.nextId
      = (db.companies.filter (fun c => c.handle == data.company_handle)).map
          (fun c => (newJob db data, c)) := by
    show ((db.jobs ++ [newJob db data]).flatMap (fun j =>
        (db.companies.filter (fun c => c.handle == j.company_handle)).map
          (fun c => (j, c)))).filter (fun jc => jc.1.id == db.nextId) = _
    rw [List.flatMap_append, List.filter_append]
    have h1 : ((db.jobs.flatMap (fun j =>
        (db.companies.filter (fun c => c.handle == j.company_handle)).map
          (fun c => (j, c)))).filter (fun jc => jc.1.id == db.nextId)) = [] := by
      rw [List.filter_eq_nil_iff]
      intro jc hjc
      simp only [List.mem_flatMap, List.mem_map, List.mem_filter] at hjc
      obtain ⟨j, hj, c, _, hjc2⟩ := hjc
      rw [← hjc2]
      simp [hbP j hj]
    rw [h1]
    simp only [List.flatMap_cons, List.flatMap_nil, List.append_nil, List.nil_append]
    have hq : (fun c : CompanyRec => c.handle == (newJob db data).company_handle)
        = (fun c : CompanyRec => c.handle == data.company_handle) := rfl
    rw [hq, List.filter_eq_self.mpr]
    intro jc hjc
    simp only [List.mem_map] at hjc
    obtain ⟨c, _, hc2⟩ := hjc
    rw [← hc2]
    simp [newJob]
  obtain ⟨c, hcmem, hch⟩ := List.any_eq_true.mp hcomp
  cases hfc : db.companies.filter (fun c2 => c2.handle == data.company_handle) with
  | nil => exact absurd (hfc ▸ List.mem_filter.mpr ⟨hcmem, hch⟩) (List.not_mem_nil c)
  | cons c0 cs =>
    refine ⟨{ id := db.nextId, title := data.title, salary := data.salary,
              equity := data.equity, company_handle := data.company_handle,
              name := c0.name,
              company := ((db.companies.filter
                (fun c2 => c2.handle == data.company_handle)).map companyProjOf).head? },
      ?_, rfl, rfl, rfl, rfl⟩
    have hid2 : (create db data).1.id = db.nextId := rfl
    unfold findOne
    rw [hid2, hrows, hfc]
    simp only [List.map_cons, List.head?_cons]
    show (Except.ok
      { id := db.nextId, title := data.title, salary := data.salary,
        equity := data.equity, company_handle := data.company_handle, name := c0.name,
        company := ((db.companies.filter
          (fun c2 => c2.handle == data.company_handle)).map companyProjOf).head? }
      : Except JsError FindOneJob)
      = Except.ok
      { id := db.nextId, title := data.title, salary := data.salary,
        equity := data.equity, company_handle := data.company_handle, name := c0.name,
        company := some (companyProjOf c0) }
    rw [hfc]
    rfl

/-- The concrete create input of the C9 witness. -/
def dataW : CreateData := ⟨"new", some 1000, none, "c"⟩

/-- Witness for the C9 theorem: a concrete database and input on which
the round-trip holds. -/
theorem create_then_findOne_witness :
    (db1.jobs.all (fun j => decide (j.id < db1.nextId)) = true
      ∧ db1.companies.any (fun c => c.handle == dataW.company_handle) = true)
    ∧ ((create db1 dataW).1.title = dataW.title
      ∧ (create db1 dataW).1.salary = dataW.salary
      ∧ (create db1 dataW).1.equity = dataW.equity
      ∧ (create db1 dataW).1.company_handle = dataW.company_handle
      ∧ ∃ r : FindOneJob,
          findOne (create db1 dataW).2 (create db1 dataW).1.id = Except.ok r
          ∧ r.title = dataW.title ∧ r.salary = dataW.salary
          ∧ r.equity = dataW.equity ∧ r.company_handle = dataW.company_handle) :=
  ⟨⟨by decide, by decide⟩, create_then_findOne db1 dataW (by decide) (by decide)⟩

/-- The ordering ORDER BY id imposes on the joined listing rows. -/
def pageLe (a b : JobSearchRow) : Prop := a.id ≤ b.id

instance : DecidableRel pageLe := fun a b => Nat.decLe a.id b.id

instance : IsTotal JobSearchRow pageLe := ⟨fun a b => Nat.le_total a.id b.id⟩

instance : IsTrans JobSearchRow pageLe := ⟨fun _ _ _ hab hbc => Nat.le_trans hab hbc⟩

/-- The joined listing of findSome after ORDER BY id. -/
def sortedListing (db : DB) (username : String) : List JobSearchRow :=
  List.insertionSort pageLe ((scopeRows db username).map searchRowOf)

/-- Job.findSome: the joined listing ORDER BY id OFFSET $2 LIMIT $3,
paired with SELECT COUNT(*) FROM jobs. -/
def findSome (db : DB) (offset amt : Nat) (username : String) :
    List JobSearchRow × Nat :=
  (((sortedListing db username).drop offset).take amt, db.jobs.length)

/-- C8: findSome returns the window of length at most amt starting at
position offset of the id-ordered joined listing (row i of the window
is row offset + i of the ordering), the window is itself ordered by
ascending identifier, and the returned total is the full unfiltered
jobs row count, the same value whatever the offset and count are. -/
theorem findSome_pagination (db : DB) (offset amt : Nat) (username : String) :
    (findSome db offset amt username).1
      = ((sortedListing db username).drop offset).take amt
    ∧ (findSome db offset amt username).1.length ≤ amt
    ∧ List.Sorted pageLe (findSome db offset amt username).1
    ∧ List.Sorted pageLe (sortedListing db username)
    ∧ (∀ i : Nat, i < (findSome db offset amt username).1.length →
        (findSome db offset amt username).1[i]?
          = (sortedListing db username)[offset + i]?)
    ∧ (findSome db offset amt username).2 = db.jobs.length
    ∧ ∀ off2 amt2 : Nat,
        (findSome db off2 amt2 username).2 = (findSome db offset amt username).2 := by
  refine ⟨rfl, List.length_take_le amt _, ?_, ?_, ?_, rfl, fun _ _ => rfl⟩
  · exact List.Pairwise.sublist
      ((List.take_sublist _ _).trans (List.drop_sublist _ _))
      (List.sorted_insertionSort pageLe _)
  · exact List.sorted_insertionSort pageLe _
  · intro i hi
    have hi2 : i < amt := lt_of_lt_of_le hi (List.length_take_le amt _)
    show (((sortedListing db username).drop offset).take amt)[i]? = _
    rw [List.getElem?_take, if_pos hi2, List.getElem?_drop]

/-- Witness for the C8 theorem at the concrete scenario of the spec:
page (1, 1) over three jobs. -/
theorem findSome_pagination_witness :
    (findSome db1 1 1 "u").1 = ((sortedListing db1 "u").drop 1).take 1
    ∧ (findSome db1 1 1 "u").1.length ≤ 1
    ∧ List.Sorted pageLe (findSome db1 1 1 "u").1
    ∧ List.Sorted pageLe (sortedListing db1 "u")
    ∧ (∀ i : Nat, i < (findSome db1 1 1 "u").1.length →
        (findSome db1 1 1 "u").1[i]? = (sortedListing db1 "u")[1 + i]?)
    ∧ (findSome db1 1 1 "u").2 = db1.jobs.length
    ∧ ∀ off2 amt2 : Nat, (findSome db1 off2 amt2 "u").2 = (findSome db1 1 1 "u").2 :=
  findSome_pagination db1 1 1 "u"

end Jobly
